import Mathlib

/-!
Shallow embedding of the ffmpeg-capture core (src/src/index.ts): the options
validator, platform detection, the quality resolver, the ffmpeg argument
builder, and the process-lifecycle state machine, together with theorems
settling the specification claims.

Modelling conventions:
* TypeScript strings are `String`; optional fields are `Option`; JavaScript
  numbers that the code compares and stringifies (fps, crf) are `ℚ` (the
  inputs exercised here are exactly representable in binary floating point,
  so order and equality agree with the JS semantics).
* JavaScript truthiness on optional strings (`undefined` and `""` are falsy)
  is `jsVal`; `a || b` on strings is `jsOr`.
* Environment interaction (`platform()`, `process.env`, `existsSync`) is an
  explicit `Env` record passed to the functions that read it.
* Functions that `throw` return `Except String`.
* `Number.prototype.toString` is `jsNumToString`; it agrees with JS on
  integral values (the only values whose rendering any theorem depends on).
-/

set_option autoImplicit false

namespace FfmpegCapture

/-- JS truthiness for an optional string: `undefined` and `""` are falsy;
a truthy value is returned as `some`. -/
def jsVal : Option String → Option String
  | none => none
  | some s => if s.isEmpty then none else some s

/-- JS `a || b` for an optional string `a` and default `b`. -/
def jsOr (o : Option String) (d : String) : String :=
  match jsVal o with
  | some s => s
  | none => d

/-- JS number rendering. Agrees with JS on integral values; non-integral
rationals are rendered in Lean's `num/den` notation (no theorem depends on
the text of a non-integral rendering). -/
def jsNumToString (q : ℚ) : String :=
  if q.den = 1 then toString q.num else toString q

/-- `PlatformConfig` from index.ts. The TS enum types erase to strings at
runtime and the code switches on string literals, so the fields are
modelled as strings. -/
structure PlatformConfig where
  displayServer : Option String := none
  windowsCaptureMethod : Option String := none
  preferredAudioBackend : Option String := none
deriving Repr, DecidableEq

/-- `RecorderOptions` from index.ts. `input` is a string (the validator
checks membership in the allowed set, so invalid values are representable,
as they are at the untyped JS runtime). -/
structure RecorderOptions where
  input : String
  output : String
  fps : Option ℚ := none
  screenId : Option ℤ := none
  audioDevice : Option String := none
  ffmpegPath : Option String := none
  videoCodec : Option String := none
  audioCodec : Option String := none
  quality : Option String := none
  videoQuality : Option String := none
  audioQuality : Option String := none
  encodingSpeed : Option String := none
  crf : Option ℚ := none
  videoBitrate : Option String := none
  audioBitrate : Option String := none
  platformConfig : Option PlatformConfig := none
deriving Repr, DecidableEq

/-- The ambient environment read by the source: `platform()`, the
environment variables consulted by the detectors, and the `existsSync`
probes. -/
structure Env where
  platform : String
  waylandDisplay : Option String := none
  xdgSessionType : Option String := none
  display : Option String := none
  pulseRuntimePath : Option String := none
  jackDefaultServer : Option String := none
  wfRecorderExists : Bool := false
  pulseRunDirExists : Bool := false
  jackShmExists : Bool := false
deriving Repr, DecidableEq

/-- The `validQualityLevels` list from `validateRecorderOptions`. -/
def validQualityLevels : List String :=
  ["ultrafast", "superfast", "veryfast", "faster", "fast", "medium",
   "slow", "slower", "veryslow", "placebo", "low", "high"]

/-- The `validVideoQualities` list from `validateRecorderOptions`. -/
def validVideoQualities : List String :=
  ["lossless", "visually-lossless", "high", "medium", "low", "very-low"]

/-- The `validAudioQualities` list from `validateRecorderOptions`. -/
def validAudioQualities : List String :=
  ["lossless", "high", "medium", "low", "very-low"]

/-- `validateRecorderOptions` from index.ts: the sequence of guarded
`throw`s, modelled as nested conditionals returning the first error. -/
def validateRecorderOptions (o : RecorderOptions) : Except String Unit :=
  if o.output.isEmpty then
    .error "Output path is required"
  else if ¬ (["screen", "audio", "both"].contains o.input) then
    .error "Input must be one of: screen, audio, both"
  else if o.fps.any (fun f => decide (f < 1) || decide (f > 60)) then
    .error "FPS must be between 1 and 60"
  else if o.screenId.any (fun s => decide (s < 0)) then
    .error "Screen ID must be non-negative"
  else if (jsVal o.quality).any (fun q => !(validQualityLevels.contains q)) then
    .error ("Quality must be one of: " ++ String.intercalate ", " validQualityLevels)
  else if (jsVal o.videoQuality).any (fun q => !(validVideoQualities.contains q)) then
    .error ("Video quality must be one of: " ++ String.intercalate ", " validVideoQualities)
  else if (jsVal o.audioQuality).any (fun q => !(validAudioQualities.contains q)) then
    .error ("Audio quality must be one of: " ++ String.intercalate ", " validAudioQualities)
  else if (jsVal o.encodingSpeed).any (fun q => !(validQualityLevels.contains q)) then
    .error ("Encoding speed must be one of: " ++ String.intercalate ", " validQualityLevels)
  else if o.crf.any (fun c => decide (c < 0) || decide (c > 51)) then
    .error "CRF must be between 0 and 51"
  else if ((o.platformConfig.bind fun pc => jsVal pc.displayServer).any
      (fun d => !(["x11", "wayland", "auto"].contains d))) then
    .error "Display server must be one of: x11, wayland, auto"
  else if ((o.platformConfig.bind fun pc => jsVal pc.windowsCaptureMethod).any
      (fun d => !(["gdigrab", "dshow", "auto"].contains d))) then
    .error "Windows capture method must be one of: gdigrab, dshow, auto"
  else
    .ok ()

/-- `detectDisplayServer` from index.ts: Wayland if `WAYLAND_DISPLAY` is
truthy or `XDG_SESSION_TYPE === 'wayland'`; else X11 if `DISPLAY` is truthy
or `XDG_SESSION_TYPE === 'x11'`; else X11. -/
def detectDisplayServer (env : Env) : String :=
  if (jsVal env.waylandDisplay).isSome || env.xdgSessionType == some "wayland" then
    "wayland"
  else if (jsVal env.display).isSome || env.xdgSessionType == some "x11" then
    "x11"
  else
    "x11"

/-- `detectWindowsCaptureMethod` from index.ts: always gdigrab. -/
def detectWindowsCaptureMethod : String := "gdigrab"

/-- `detectLinuxAudioBackend` from index.ts. -/
def detectLinuxAudioBackend (env : Env) : String :=
  if (jsVal env.pulseRuntimePath).isSome || env.pulseRunDirExists then
    "pulse"
  else if (jsVal env.jackDefaultServer).isSome || env.jackShmExists then
    "jack"
  else
    "alsa"

/-- `detectHardwareAcceleration` from index.ts. -/
def detectHardwareAcceleration (env : Env) : Option String :=
  if env.platform = "win32" then some "h264_nvenc"
  else if env.platform = "darwin" then some "h264_videotoolbox"
  else if env.platform = "linux" then some "h264_vaapi"
  else none

/-- The `QualityConfig` object assembled inside `createFfmpegArgs`. -/
structure QualityConfig where
  legacy : Option String := none
  videoQuality : Option String := none
  audioQuality : Option String := none
  encodingSpeed : Option String := none
  crf : Option ℚ := none
  videoBitrate : Option String := none
  audioBitrate : Option String := none
deriving Repr, DecidableEq

/-- `mapQualityLevelToPreset` from index.ts (switch with default
"medium"). -/
def mapQualityLevelToPreset (level : String) : String :=
  match level with
  | "ultrafast" => "ultrafast"
  | "superfast" => "superfast"
  | "veryfast" => "veryfast"
  | "faster" => "faster"
  | "fast" => "fast"
  | "medium" => "medium"
  | "slow" => "slow"
  | "slower" => "slower"
  | "veryslow" => "veryslow"
  | "placebo" => "placebo"
  | "low" => "veryfast"
  | "high" => "slow"
  | _ => "medium"

/-- `getEncodingSpeed` from index.ts. The TS signature admits `null` but
every path returns a (non-empty) string, so the result type is `String`. -/
def getEncodingSpeed (config : QualityConfig) : String :=
  match jsVal config.encodingSpeed with
  | some es => mapQualityLevelToPreset es
  | none =>
    match jsVal config.legacy with
    | some "low" => "veryfast"
    | some "high" => "slow"
    | some _ => "medium"
    | none => "medium"

/-- The `number | 'lossless'` return type of `getVideoQualityCRF`. -/
inductive VideoCrf where
  | lossless : VideoCrf
  | num : ℕ → VideoCrf
deriving Repr, DecidableEq

/-- `getVideoQualityCRF` from index.ts (switch with default 23). -/
def getVideoQualityCRF (quality : String) : VideoCrf :=
  match quality with
  | "lossless" => .lossless
  | "visually-lossless" => .num 15
  | "high" => .num 18
  | "medium" => .num 23
  | "low" => .num 28
  | "very-low" => .num 35
  | _ => .num 23

/-- `getLegacyVideoQuality` from index.ts (switch with default 23). -/
def getLegacyVideoQuality (quality : String) : ℕ :=
  match quality with
  | "ultrafast" | "superfast" | "veryfast" | "low" => 35
  | "faster" | "fast" => 28
  | "medium" => 23
  | "slow" | "high" => 18
  | "slower" | "veryslow" => 15
  | "placebo" => 12
  | _ => 23

/-- `applyVideoQualitySettings` from index.ts, returning the flags it pushes
onto `args`, in order: speed flag, then the crf/bitrate/quality chain,
then the lossless `-qp 0` tail. -/
def applyVideoQualitySettings (config : QualityConfig) : List String :=
  (let speed := getEncodingSpeed config
   if speed.isEmpty then [] else ["-preset", speed])
  ++ (match config.crf with
      | some c => ["-crf", jsNumToString c]
      | none =>
        match jsVal config.videoBitrate with
        | some b => ["-b:v", b]
        | none =>
          match jsVal config.videoQuality with
          | some vq =>
            match getVideoQualityCRF vq with
            | .lossless => ["-crf", "0"]
            | .num n => ["-crf", toString n]
          | none =>
            match jsVal config.legacy with
            | some l => ["-crf", toString (getLegacyVideoQuality l)]
            | none => ["-crf", "23"])
  ++ (if config.videoQuality == some "lossless" then ["-qp", "0"] else [])

/-- `getAudioCodec` from index.ts. -/
def getAudioCodec (config : Option QualityConfig) : String :=
  if (config.map fun c => c.audioQuality == some "lossless").getD false then
    "flac"
  else
    "aac"

/-- `getAudioQualityBitrate` from index.ts (`null` for flac lossless). -/
def getAudioQualityBitrate (quality codec : String) : Option String :=
  if codec = "flac" ∧ quality = "lossless" then none
  else
    match quality with
    | "lossless" => some (if codec = "aac" then "320k" else "512k")
    | "high" => some "256k"
    | "medium" => some "128k"
    | "low" => some "96k"
    | "very-low" => some "64k"
    | _ => some "128k"

/-- `getLegacyAudioQuality` from index.ts (switch with default 128k). -/
def getLegacyAudioQuality (quality : String) : String :=
  match quality with
  | "ultrafast" | "superfast" | "veryfast" | "low" => "64k"
  | "faster" | "fast" => "96k"
  | "medium" => "128k"
  | "slow" | "high" => "256k"
  | "slower" | "veryslow" | "placebo" => "320k"
  | _ => "128k"

/-- The trailing "additional settings based on codec and quality" block of
`applyAudioQualitySettings` from index.ts. -/
def audioCodecExtraFlags (config : QualityConfig) (codec : String) : List String :=
  if codec = "aac" then
    (if config.audioQuality == some "high" ∨ config.audioQuality == some "lossless"
     then ["-aac_coder", "twoloop"] else [])
  else if codec = "libopus" then ["-application", "audio"]
  else if codec = "flac" then ["-compression_level", "8"]
  else []

/-- `applyAudioQualitySettings` from index.ts: the bitrate chain followed by
the codec-specific trailing flags. -/
def applyAudioQualitySettings (config : QualityConfig) (codec : String) : List String :=
  (match jsVal config.audioBitrate with
   | some b => ["-b:a", b]
   | none =>
     match jsVal config.audioQuality with
     | some aq =>
       match getAudioQualityBitrate aq codec with
       | some br => ["-b:a", br]
       | none => []
     | none =>
       match jsVal config.legacy with
       | some l => ["-b:a", getLegacyAudioQuality l]
       | none => ["-b:a", "128k"])
  ++ audioCodecExtraFlags config codec

/-- `addVideoCodec` from index.ts, returning the flags it pushes. -/
def addVideoCodec (env : Env) (codec : Option String)
    (qualityConfig : Option QualityConfig) : List String :=
  match jsVal codec with
  | some c =>
    ["-c:v", c] ++
      (match qualityConfig with
       | some qc => applyVideoQualitySettings qc
       | none => [])
  | none =>
    let hwAccel := detectHardwareAcceleration env
    let selectedCodec := hwAccel.getD "libx264"
    ["-c:v", selectedCodec] ++
      (match qualityConfig with
       | some qc => applyVideoQualitySettings qc
       | none => ["-preset", "medium", "-crf", "23"])

/-- `addAudioCodec` from index.ts, returning the flags it pushes. -/
def addAudioCodec (codec : Option String)
    (qualityConfig : Option QualityConfig) : List String :=
  match jsVal codec with
  | some c =>
    ["-c:a", c] ++
      (match qualityConfig with
       | some qc => applyAudioQualitySettings qc c
       | none => [])
  | none =>
    let selectedCodec := getAudioCodec qualityConfig
    ["-c:a", selectedCodec] ++
      (match qualityConfig with
       | some qc => applyAudioQualitySettings qc selectedCodec
       | none => ["-b:a", "128k"])

/-- `addVideoInput` from index.ts, returning the flags it pushes, or the
error it throws. Note the source's Wayland branch throws when
`/usr/bin/wf-recorder` EXISTS (`existsSync` without negation) and emits the
kmsgrab fallback when it is absent. -/
def addVideoInput (env : Env) (screenId : ℤ) (fps : ℚ)
    (config : PlatformConfig) : Except String (List String) :=
  if env.platform = "darwin" then
    .ok ["-f", "avfoundation", "-i", toString screenId ++ ":", "-r", jsNumToString fps]
  else if env.platform = "win32" then
    let captureMethod := jsOr config.windowsCaptureMethod detectWindowsCaptureMethod
    if captureMethod = "gdigrab" then
      .ok (["-f", "gdigrab", "-framerate", jsNumToString fps] ++
        (if screenId > 0 then
          ["-i", "desktop", "-offset_x", "0", "-offset_y", "0"]
        else
          ["-i", "desktop"]))
    else if captureMethod = "dshow" then
      .ok ["-f", "dshow", "-framerate", jsNumToString fps,
           "-i", "video=\x22screen-capture-recorder\x22"]
    else
      .ok ["-f", "gdigrab", "-framerate", jsNumToString fps, "-i", "desktop"]
  else if env.platform = "linux" then
    let displayServer := jsOr config.displayServer (detectDisplayServer env)
    if displayServer = "wayland" then
      if env.wfRecorderExists then
        .error "Wayland capture requires wf-recorder. Please use X11 session or install wf-recorder."
      else
        .ok ["-f", "kmsgrab", "-i", "-", "-r", jsNumToString fps]
    else
      let display := jsOr env.display ":0.0"
      .ok (["-f", "x11grab", "-r", jsNumToString fps] ++
        (if screenId > 0 then
          ["-i", display ++ "." ++ toString screenId]
        else
          ["-i", display]) ++
        ["-show_region", "1"])
  else
    .error ("Unsupported platform for screen capture: " ++ env.platform)

/-- `addAudioInput` from index.ts, returning the flags it pushes, or the
error it throws. -/
def addAudioInput (env : Env) (audioDevice : Option String)
    (config : PlatformConfig) : Except String (List String) :=
  if env.platform = "darwin" then
    .ok ["-f", "avfoundation", "-i", ":" ++ jsOr audioDevice "0"]
  else if env.platform = "win32" then
    let preferredBackend := jsOr config.preferredAudioBackend "dshow"
    if preferredBackend = "dshow" then
      .ok ["-f", "dshow", "-i", "audio=" ++ jsOr audioDevice "Stereo Mix"]
    else if preferredBackend = "wasapi" then
      .ok ["-f", "wasapi", "-i", jsOr audioDevice "default"]
    else
      .ok ["-f", "dshow", "-i", "audio=" ++ jsOr audioDevice "Stereo Mix"]
  else if env.platform = "linux" then
    let preferredBackend := jsOr config.preferredAudioBackend (detectLinuxAudioBackend env)
    if preferredBackend = "pulse" then
      .ok ["-f", "pulse", "-i", jsOr audioDevice "default"]
    else if preferredBackend = "alsa" then
      .ok ["-f", "alsa", "-i", jsOr audioDevice "default"]
    else if preferredBackend = "jack" then
      .ok ["-f", "jack", "-i", jsOr audioDevice "default"]
    else
      .ok ["-f", "pulse", "-i", jsOr audioDevice "default"]
  else
    .error ("Unsupported platform for audio capture: " ++ env.platform)

/-- The quality configuration object literal built inside
`createFfmpegArgs` (legacy defaults to "medium" by destructuring). -/
def mkQualityConfig (o : RecorderOptions) : QualityConfig :=
  { legacy := some (o.quality.getD "medium")
    videoQuality := o.videoQuality
    audioQuality := o.audioQuality
    encodingSpeed := o.encodingSpeed
    crf := o.crf
    videoBitrate := o.videoBitrate
    audioBitrate := o.audioBitrate }

/-- The input/codec section of `createFfmpegArgs` (everything pushed
between the leading `-y` and the trailing output path), per input mode.
The first thrown error propagates (for combined mode on non-macOS the
video input is built before the audio input, as in the source). -/
def buildInputAndCodecArgs (env : Env) (o : RecorderOptions) :
    Except String (List String) :=
  let fps := o.fps.getD 30
  let screenId := o.screenId.getD 0
  let pc := o.platformConfig.getD {}
  let qc := mkQualityConfig o
  if o.input = "screen" then
    match addVideoInput env screenId fps pc with
    | .ok vi => .ok (vi ++ addVideoCodec env o.videoCodec (some qc))
    | .error e => .error e
  else if o.input = "audio" then
    match addAudioInput env o.audioDevice pc with
    | .ok ai => .ok (ai ++ addAudioCodec o.audioCodec (some qc))
    | .error e => .error e
  else if o.input = "both" then
    if env.platform = "darwin" then
      .ok (["-f", "avfoundation",
            "-i", toString screenId ++ ":" ++ jsOr o.audioDevice "0",
            "-r", jsNumToString fps]
        ++ addVideoCodec env o.videoCodec (some qc)
        ++ addAudioCodec o.audioCodec (some qc))
    else
      match addVideoInput env screenId fps pc with
      | .error e => .error e
      | .ok vi =>
        match addAudioInput env o.audioDevice pc with
        | .error e => .error e
        | .ok ai =>
          .ok (vi ++ ai
            ++ addVideoCodec env o.videoCodec (some qc)
            ++ addAudioCodec o.audioCodec (some qc))
  else
    .ok []

/-- `createFfmpegArgs` from index.ts: `['-y']`, then the per-input-mode
groups in push order, then the output path. -/
def createFfmpegArgs (env : Env) (o : RecorderOptions) : Except String (List String) :=
  match buildInputAndCodecArgs env o with
  | .ok core => .ok ("-y" :: core ++ [o.output])
  | .error e => .error e

/-! ## Process lifecycle (createRecorder's start/stop closures)

The recorder handle is the pair of mutable fields `process` and
`isRecording`. Asynchronous process events are passed in explicitly: `start`
takes the spawn outcome, `stop` takes which of process-exit and the
5-second watchdog happens first. -/

/-- The mutable fields of the `Recorder` handle. The process reference is
abstracted to an identifier. -/
structure RecorderState where
  process : Option ℕ
  isRecording : Bool
deriving Repr, DecidableEq

/-- The handle as `createRecorder` returns it: no process, not recording. -/
def initialRecorderState : RecorderState := { process := none, isRecording := false }

/-- Outcome of `spawn`: either the 'spawn' event fires with a process, or
the 'error' event fires with a message. -/
inductive SpawnResult where
  | spawned : ℕ → SpawnResult
  | errored : String → SpawnResult
deriving Repr, DecidableEq

/-- The `start` closure from index.ts as a transition on the handle state:
the already-in-progress guard runs first and leaves the state untouched; on
the 'spawn' event the process is stored and the flag set; on the 'error'
event the fields are reset (the code assigns `process` then nulls it in the
handler) and the rejection wraps the underlying message. -/
def start (s : RecorderState) (spawn : SpawnResult) :
    Except String Unit × RecorderState :=
  if s.isRecording then
    (.error "Recording is already in progress", s)
  else
    match spawn with
    | .spawned h => (.ok (), { process := some h, isRecording := true })
    | .errored m =>
      (.error ("Failed to start FFmpeg: " ++ m), { process := none, isRecording := false })

/-- The watchdog delay from index.ts: `setTimeout(..., 5000)`. -/
def stopTimeoutMs : ℚ := 5000

/-- What the underlying process does after `stop` sends SIGINT: either it
exits with `code` (JS `number | null`) at `atMs` milliseconds after the
signal, or it never exits. -/
inductive StopEvent where
  | exited : Option ℤ → ℚ → StopEvent
  | noExit : StopEvent
deriving Repr, DecidableEq

/-- Observable outcome of the `stop` closure: the promise settlement, the
handle state at settlement time, whether `clearTimeout` ran, which signals
were sent, and the settlement time in ms after the SIGINT. -/
structure StopResult where
  outcome : Except String Unit
  state : RecorderState
  watchdogCancelled : Bool
  sigintSent : Bool
  sigkillSent : Bool
  settleTimeMs : ℚ
deriving Repr

/-- The `stop` closure from index.ts as a function of the handle state and
the process's behaviour. A non-running handle returns immediately.
Otherwise SIGINT is sent; if the process exits before the 5000 ms watchdog,
the exit handler cancels the watchdog, clears both fields, and resolves on
code 0/null or rejects with the code; if the watchdog fires first it sends
SIGKILL and rejects with the timeout error, leaving the fields as they
were at that moment. -/
def stop (s : RecorderState) (ev : StopEvent) : StopResult :=
  if s.process.isNone || !s.isRecording then
    { outcome := .ok (), state := s, watchdogCancelled := false
      sigintSent := false, sigkillSent := false, settleTimeMs := 0 }
  else
    let timedOut : StopResult :=
      { outcome := .error "FFmpeg process did not terminate gracefully"
        state := s, watchdogCancelled := false
        sigintSent := true, sigkillSent := true, settleTimeMs := stopTimeoutMs }
    match ev with
    | .exited code atMs =>
      if atMs < stopTimeoutMs then
        { outcome :=
            if code = some 0 ∨ code = none then .ok ()
            else .error ("FFmpeg exited with code " ++
              (match code with | some c => toString c | none => "null"))
          state := { process := none, isRecording := false }
          watchdogCancelled := true
          sigintSent := true, sigkillSent := false, settleTimeMs := atMs }
      else
        timedOut
    | .noExit => timedOut

/-! ## Helper notions and lemmas -/

/-- `hasFlagPair args flag v` holds when `flag` immediately followed by `v`
occurs in `args` (an adjacent flag/value pair, as ffmpeg reads them). -/
def hasFlagPair : List String → String → String → Bool
  | [], _, _ => false
  | [_], _, _ => false
  | a :: b :: rest, flag, v => (a == flag && b == v) || hasFlagPair (b :: rest) flag v

theorem hasFlagPair_cons (a : String) {l : List String} {f v : String}
    (h : hasFlagPair l f v = true) : hasFlagPair (a :: l) f v = true := by
  cases l with
  | nil => simp [hasFlagPair] at h
  | cons b rest => simp [hasFlagPair] at h ⊢; tauto

theorem hasFlagPair_append_right {l : List String} (t : List String) {f v : String}
    (h : hasFlagPair l f v = true) : hasFlagPair (l ++ t) f v = true := by
  induction l with
  | nil => simp [hasFlagPair] at h
  | cons a rest ih =>
    cases rest with
    | nil => simp [hasFlagPair] at h
    | cons b rest' =>
      simp only [hasFlagPair, Bool.or_eq_true, Bool.and_eq_true, beq_iff_eq] at h ⊢
      rcases h with h | h
      · exact Or.inl h
      · exact Or.inr (by simpa using ih (by simpa using h))

theorem hasFlagPair_append_left (s : List String) {l : List String} {f v : String}
    (h : hasFlagPair l f v = true) : hasFlagPair (s ++ l) f v = true := by
  induction s with
  | nil => simpa using h
  | cons a s ih => exact hasFlagPair_cons a ih

theorem hasFlagPair_sublist (s t : List String) {l : List String} {f v : String}
    (h : hasFlagPair l f v = true) : hasFlagPair (s ++ l ++ t) f v = true := by
  rw [List.append_assoc]
  exact hasFlagPair_append_left s (hasFlagPair_append_right t h)

/-- The encoding-speed preset string is never empty (every branch of
`getEncodingSpeed` returns a named preset), so the `-preset` flag is always
emitted. -/
theorem getEncodingSpeed_isEmpty_false (qc : QualityConfig) :
    (getEncodingSpeed qc).isEmpty = false := by
  unfold getEncodingSpeed mapQualityLevelToPreset
  split
  · split <;> rfl
  · split <;> rfl

/-- With the structured video preset "lossless" and neither an explicit CRF
nor a truthy bitrate override, the video quality flags are the speed preset
followed by `-crf 0 -qp 0`. -/
theorem applyVideoQualitySettings_lossless (qc : QualityConfig)
    (hvq : qc.videoQuality = some "lossless") (hcrf : qc.crf = none)
    (hbr : jsVal qc.videoBitrate = none) :
    applyVideoQualitySettings qc
      = ["-preset", getEncodingSpeed qc, "-crf", "0", "-qp", "0"] := by
  unfold applyVideoQualitySettings
  rw [hcrf, hbr, hvq]
  simp [jsVal, getVideoQualityCRF, getEncodingSpeed_isEmpty_false qc,
    show ("lossless" : String).isEmpty = false from rfl]

/-- `addVideoCodec` with a quality configuration always emits a codec pair
followed by the resolved video quality flags. -/
theorem addVideoCodec_cons_quality (env : Env) (codec : Option String)
    (qc : QualityConfig) :
    ∃ c, addVideoCodec env codec (some qc)
      = "-c:v" :: c :: applyVideoQualitySettings qc := by
  unfold addVideoCodec
  cases h : jsVal codec with
  | some c => exact ⟨c, by simp⟩
  | none => exact ⟨(detectHardwareAcceleration env).getD "libx264", by simp⟩

/-- Any argument list surrounding a lossless-preset video codec group has
both the `-crf 0` and `-qp 0` flag pairs. -/
theorem video_codec_group_lossless_pairs (env : Env) (codec : Option String)
    (qc : QualityConfig)
    (hvq : qc.videoQuality = some "lossless") (hcrf : qc.crf = none)
    (hbr : jsVal qc.videoBitrate = none) (xs ys : List String) :
    hasFlagPair (xs ++ addVideoCodec env codec (some qc) ++ ys) "-crf" "0" = true
    ∧ hasFlagPair (xs ++ addVideoCodec env codec (some qc) ++ ys) "-qp" "0" = true := by
  obtain ⟨c, hc⟩ := addVideoCodec_cons_quality env codec qc
  rw [hc, applyVideoQualitySettings_lossless qc hvq hcrf hbr]
  constructor
  · exact hasFlagPair_sublist xs ys
      (hasFlagPair_cons _ (hasFlagPair_cons _ (hasFlagPair_cons _ (hasFlagPair_cons _ rfl))))
  · refine hasFlagPair_sublist xs ys ?_
    refine hasFlagPair_cons _ (hasFlagPair_cons _ (hasFlagPair_cons _ ?_))
    exact hasFlagPair_cons _ (hasFlagPair_cons _ (hasFlagPair_cons _ rfl))

/-- A guarded throw succeeds iff the guard is false and the continuation
succeeds. -/
theorem ite_error_ok_iff (c : Prop) [Decidable c] (msg : String)
    (rest : Except String Unit) :
    (if c then Except.error msg else rest) = .ok () ↔ (¬ c ∧ rest = .ok ()) := by
  split_ifs with h <;> simp [h]

/-- Exact characterization of validator acceptance: `validateRecorderOptions`
returns `ok` iff every one of its guard conditions is false. -/
theorem validateRecorderOptions_ok_iff (o : RecorderOptions) :
    validateRecorderOptions o = .ok () ↔
      (o.output.isEmpty = false
       ∧ (["screen", "audio", "both"].contains o.input) = true
       ∧ o.fps.any (fun f => decide (f < 1) || decide (f > 60)) = false
       ∧ o.screenId.any (fun s => decide (s < 0)) = false
       ∧ (jsVal o.quality).any (fun q => !(validQualityLevels.contains q)) = false
       ∧ (jsVal o.videoQuality).any (fun q => !(validVideoQualities.contains q)) = false
       ∧ (jsVal o.audioQuality).any (fun q => !(validAudioQualities.contains q)) = false
       ∧ (jsVal o.encodingSpeed).any (fun q => !(validQualityLevels.contains q)) = false
       ∧ o.crf.any (fun c => decide (c < 0) || decide (c > 51)) = false
       ∧ (o.platformConfig.bind fun pc => jsVal pc.displayServer).any
           (fun d => !(["x11", "wayland", "auto"].contains d)) = false
       ∧ (o.platformConfig.bind fun pc => jsVal pc.windowsCaptureMethod).any
           (fun d => !(["gdigrab", "dshow", "auto"].contains d)) = false) := by
  unfold validateRecorderOptions
  simp only [ite_error_ok_iff, Bool.not_eq_true, Bool.not_eq_false, not_not, and_true]

/-! ## Claim theorems -/

/-- C1: contrary to the claim, on Linux/Wayland the source throws the
unsupported-environment error exactly when `/usr/bin/wf-recorder` IS
present (the `existsSync` test at index.ts:293 lacks a negation, so it
contradicts the thrown message "... or install wf-recorder"), and with the
helper absent it silently emits the kmsgrab/stdin fallback. This theorem
evaluates the code at both environments. -/
theorem wayland_helper_check_inverted :
    addVideoInput { platform := "linux" } 0 30 { displayServer := some "wayland" }
      = .ok ["-f", "kmsgrab", "-i", "-", "-r", "30"]
    ∧ addVideoInput { platform := "linux", wfRecorderExists := true } 0 30
        { displayServer := some "wayland" }
      = .error "Wayland capture requires wf-recorder. Please use X11 session or install wf-recorder." := by
  constructor <;> rfl

/-- A Linux/X11 environment for concrete builds. -/
def linuxX11Env : Env := { platform := "linux", display := some ":0" }

/-- Modelled from the spec: the documented validity conditions of the
claim (missing output path, invalid input mode, fps in [1,60], non-negative
screen index, recognized quality/preset/encoding-speed names, CRF in
[0,51], recognized display-server and Windows-capture-method values) —
amended to omit the preferred audio backend, which the source validator
never examines. -/
def specValidOptions (o : RecorderOptions) : Bool :=
  !o.output.isEmpty
  && ["screen", "audio", "both"].contains o.input
  && (match o.fps with
      | none => true
      | some f => decide (1 ≤ f) && decide (f ≤ 60))
  && (match o.screenId with
      | none => true
      | some s => decide (0 ≤ s))
  && (match jsVal o.quality with
      | none => true
      | some q => validQualityLevels.contains q)
  && (match jsVal o.videoQuality with
      | none => true
      | some q => validVideoQualities.contains q)
  && (match jsVal o.audioQuality with
      | none => true
      | some q => validAudioQualities.contains q)
  && (match jsVal o.encodingSpeed with
      | none => true
      | some q => validQualityLevels.contains q)
  && (match o.crf with
      | none => true
      | some c => decide (0 ≤ c) && decide (c ≤ 51))
  && (match o.platformConfig.bind fun pc => jsVal pc.displayServer with
      | none => true
      | some d => ["x11", "wayland", "auto"].contains d)
  && (match o.platformConfig.bind fun pc => jsVal pc.windowsCaptureMethod with
      | none => true
      | some w => ["gdigrab", "dshow", "auto"].contains w)

/-- Options whose only irregularity is an unrecognized preferred audio
backend. -/
def bogusBackendOptions : RecorderOptions :=
  { input := "screen", output := "t.mp4",
    platformConfig := some { preferredAudioBackend := some "bogus-backend" } }

/-- C3 counterexample: an unrecognized `preferredAudioBackend` value is
accepted by the validator — no guard in `validateRecorderOptions` examines
that field, contradicting the claim that every unrecognized
platform-config value (including the preferred audio backend) is
rejected. -/
theorem unrecognized_audio_backend_accepted :
    validateRecorderOptions bogusBackendOptions = .ok () := rfl

/-- C3 (amended): the validator accepts exactly the options satisfying the
documented conditions minus any check of the preferred audio backend:
missing output path, invalid input mode, fps outside [1,60] (so fps 1 and
60 are accepted, 0 and 61 rejected), negative screen index, unrecognized
quality/preset/encoding-speed names, CRF outside [0,51], and unrecognized
display-server/Windows-capture-method values are rejected, and nothing
else is. -/
theorem validator_matches_documented_conditions (o : RecorderOptions) :
    validateRecorderOptions o = .ok () ↔ specValidOptions o = true := by
  have hrange : ∀ (x : Option ℚ) (lo hi : ℚ),
      (x.any (fun f => decide (f < lo) || decide (f > hi)) = false ↔
        (match x with
         | none => true
         | some f => decide (lo ≤ f) && decide (f ≤ hi)) = true) := by
    intro x lo hi; cases x <;> simp [not_lt]
  have hsid : ∀ x : Option ℤ,
      (x.any (fun s => decide (s < 0)) = false ↔
        (match x with | none => true | some s => decide (0 ≤ s)) = true) := by
    intro x; cases x <;> simp [not_lt]
  have hmem : ∀ (x : Option String) (l : List String),
      (x.any (fun q => !(l.contains q)) = false ↔
        (match x with | none => true | some q => l.contains q) = true) := by
    intro x l; cases x <;> simp
  rw [validateRecorderOptions_ok_iff]
  unfold specValidOptions
  simp only [Bool.and_eq_true, Bool.not_eq_true', hrange, hsid, hmem]
  tauto

/-- The non-integral frame rate 30.5 = 61/2 (exactly representable in JS
floating point), given in lowest terms. -/
def thirtyPointFive : ℚ := ⟨61, 2, by decide, by decide⟩

/-- Options with the non-integral frame rate 30.5. -/
def fractionalFpsOptions : RecorderOptions :=
  { input := "screen", output := "t.mp4", fps := some thirtyPointFive }

/-- C9 counterexample: fps 30.5 passes the validator (the range check has
no integrality test) and the argument builder then succeeds on it, so a
non-integer frame rate does reach the Argument Builder. -/
theorem fractional_fps_reaches_builder :
    validateRecorderOptions fractionalFpsOptions = .ok ()
    ∧ thirtyPointFive.den ≠ 1
    ∧ (createFfmpegArgs linuxX11Env fractionalFpsOptions).isOk = true := by
  refine ⟨rfl, by decide, rfl⟩

/-- C9 (amended): every fps value that passes `validateRecorderOptions`
lies in the interval [1,60]; integrality is not enforced. -/
theorem validated_fps_in_range (o : RecorderOptions) (f : ℚ)
    (hf : o.fps = some f) (h : validateRecorderOptions o = .ok ()) :
    1 ≤ f ∧ f ≤ 60 := by
  have h2 := (validateRecorderOptions_ok_iff o).mp h |>.2.2.1
  rw [hf] at h2
  simpa [not_lt] using h2

/-- Witness for C9 (amended) at fps 60. -/
theorem validated_fps_in_range_witness :
    (1 : ℚ) ≤ 60 ∧ (60 : ℚ) ≤ 60 :=
  validated_fps_in_range { input := "screen", output := "t.mp4", fps := some 60 }
    60 rfl rfl

/-- Modelled from the spec: the claim's structured video preset table
(lossless→0, visually-lossless→15, high→18, medium→23, low→28,
very-low→35). The catch-all is outside the claim's table and unreachable
under the validation hypothesis of the precedence theorem. -/
def specVideoPresetCrf : String → ℕ
  | "lossless" => 0
  | "visually-lossless" => 15
  | "high" => 18
  | "medium" => 23
  | "low" => 28
  | "very-low" => 35
  | _ => 23

/-- Modelled from the spec: the claim's legacy video quality table
({ultrafast,superfast,veryfast,low}→35, {faster,fast}→28, medium→23,
{slow,high}→18, {slower,veryslow}→15, placebo→12); catch-all outside the
claim's table. -/
def specLegacyVideoCrf : String → ℕ
  | "ultrafast" | "superfast" | "veryfast" | "low" => 35
  | "faster" | "fast" => 28
  | "medium" => 23
  | "slow" | "high" => 18
  | "slower" | "veryslow" => 15
  | "placebo" => 12
  | _ => 23

/-- Modelled from the spec: the claim's video quality resolution — explicit
CRF verbatim, else explicit bitrate, else structured preset table, else
legacy table, else default CRF 23. -/
def specVideoQualityFlags (qc : QualityConfig) : List String :=
  match qc.crf with
  | some c => ["-crf", jsNumToString c]
  | none =>
    match jsVal qc.videoBitrate with
    | some b => ["-b:v", b]
    | none =>
      match jsVal qc.videoQuality with
      | some vq => ["-crf", toString (specVideoPresetCrf vq)]
      | none =>
        match jsVal qc.legacy with
        | some l => ["-crf", toString (specLegacyVideoCrf l)]
        | none => ["-crf", "23"]

/-- Modelled from the spec: the claim's audio bitrate resolution — explicit
bitrate, else structured preset (high→256k, medium→128k, low→96k,
very-low→64k, lossless→320k for aac and no bitrate for flac; other codecs
with lossless are outside the claim and excluded by hypothesis), else the
legacy table, else default 128k. -/
def specAudioBitrate (qc : QualityConfig) (codec : String) : Option String :=
  match jsVal qc.audioBitrate with
  | some b => some b
  | none =>
    match jsVal qc.audioQuality with
    | some "lossless" => if codec = "flac" then none else some "320k"
    | some "high" => some "256k"
    | some "medium" => some "128k"
    | some "low" => some "96k"
    | some "very-low" => some "64k"
    | some _ => some "128k"
    | none =>
      match jsVal qc.legacy with
      | some l => some (getLegacyAudioQuality l)
      | none => some "128k"

/-- C4: quality resolution is deterministic and layered exactly as claimed,
for every presence combination of the three quality layers (explicit
numeric/bitrate overrides, structured presets, legacy level): the video
flags are the speed preset followed by the claim's highest-precedence
video quality resolution (plus the lossless `-qp 0` tail), and the audio
flags are the claim's highest-precedence bitrate resolution followed by
the codec-specific trailing flags. The hypotheses restrict preset/legacy
names to the validated vocabularies and, for the lossless audio preset,
the codec to the two documented ones. -/
theorem quality_resolution_precedence (qc : QualityConfig) (codec : String)
    (hv : (jsVal qc.videoQuality).all (fun q => validVideoQualities.contains q) = true)
    (hl : (jsVal qc.legacy).all (fun q => validQualityLevels.contains q) = true)
    (ha : (jsVal qc.audioQuality).all (fun q => validAudioQualities.contains q) = true)
    (hac : jsVal qc.audioQuality = some "lossless" → codec = "aac" ∨ codec = "flac") :
    applyVideoQualitySettings qc
      = ["-preset", getEncodingSpeed qc] ++ specVideoQualityFlags qc
        ++ (if qc.videoQuality == some "lossless" then ["-qp", "0"] else [])
    ∧ applyAudioQualitySettings qc codec
      = (match specAudioBitrate qc codec with
         | some br => ["-b:a", br]
         | none => [])
        ++ audioCodecExtraFlags qc codec := by
  constructor
  · unfold applyVideoQualitySettings specVideoQualityFlags
    simp only [getEncodingSpeed_isEmpty_false, Bool.false_eq_true, if_false]
    congr 1
    cases hc : qc.crf with
    | some c => rfl
    | none =>
      cases hb : jsVal qc.videoBitrate with
      | some b => rfl
      | none =>
        cases hv' : jsVal qc.videoQuality with
        | some vq =>
          rw [hv'] at hv
          simp only [Option.all_some, validVideoQualities, List.contains, List.elem_eq_mem,
            decide_eq_true_eq, List.mem_cons, List.mem_singleton,
            List.not_mem_nil, or_false] at hv
          rcases hv with rfl | rfl | rfl | rfl | rfl | rfl <;> rfl
        | none =>
          cases hl' : jsVal qc.legacy with
          | some l =>
            rw [hl'] at hl
            simp only [Option.all_some, validQualityLevels, List.contains, List.elem_eq_mem,
              decide_eq_true_eq, List.mem_cons, List.mem_singleton,
              List.not_mem_nil, or_false] at hl
            rcases hl with rfl | rfl | rfl | rfl | rfl | rfl | rfl | rfl | rfl
              | rfl | rfl | rfl <;> rfl
          | none => rfl
  · unfold applyAudioQualitySettings specAudioBitrate
    congr 1
    cases habr : jsVal qc.audioBitrate with
    | some b => rfl
    | none =>
      cases haq : jsVal qc.audioQuality with
      | some aq =>
        rw [haq] at ha
        simp only [Option.all_some, validAudioQualities, List.contains, List.elem_eq_mem,
          decide_eq_true_eq, List.mem_cons, List.mem_singleton,
          List.not_mem_nil, or_false] at ha
        rcases ha with rfl | rfl | rfl | rfl | rfl
        · rcases hac haq with rfl | rfl <;> rfl
        all_goals simp [getAudioQualityBitrate]
      | none =>
        cases hleg : jsVal qc.legacy with
        | some l => rfl
        | none => rfl

/-- Witness for C4: the legacy layer alone (quality "high") resolves to
CRF 18 / 256k with speed preset "slow". -/
theorem quality_resolution_precedence_witness :
    applyVideoQualitySettings { legacy := some "high" }
      = ["-preset", "slow", "-crf", "18"]
    ∧ applyAudioQualitySettings { legacy := some "high" } "aac"
      = ["-b:a", "256k"] := by
  have h := quality_resolution_precedence { legacy := some "high" } "aac"
    rfl rfl rfl (fun hcontra => by simp [jsVal] at hcontra)
  exact ⟨h.1, h.2⟩

/-- Options with the lossless video preset and an explicit CRF of 1. -/
def losslessWithCrfOptions : RecorderOptions :=
  { input := "screen", output := "out.mp4", videoQuality := some "lossless", crf := some 1 }

/-- The argument list the builder produces for `losslessWithCrfOptions`. -/
def losslessWithCrfArgs : List String :=
  ["-y", "-f", "x11grab", "-r", "30", "-i", ":0", "-show_region", "1",
   "-c:v", "h264_vaapi", "-preset", "medium", "-crf", "1", "-qp", "0", "out.mp4"]

/-- C2 counterexample: with `videoQuality := "lossless"` but an explicit
`crf := 1`, the built arguments contain `-crf 1` and `-qp 0` but NOT the
claimed `-crf 0` pair — an explicit CRF overrides the lossless
quantization while the auxiliary `-qp 0` flag is still emitted. -/
theorem lossless_with_explicit_crf_counterexample :
    createFfmpegArgs linuxX11Env losslessWithCrfOptions = .ok losslessWithCrfArgs
    ∧ hasFlagPair losslessWithCrfArgs "-crf" "0" = false
    ∧ hasFlagPair losslessWithCrfArgs "-qp" "0" = true :=
  ⟨rfl, rfl, rfl⟩

/-- C2 (amended): for every options value selecting a video path
(`input` "screen" or "both") with `videoQuality = "lossless"`, no explicit
CRF and no truthy video bitrate, every successfully built argument
sequence contains both the `-crf 0` and the `-qp 0` flag pairs. -/
theorem lossless_emits_crf0_and_qp0 (env : Env) (o : RecorderOptions)
    (args : List String)
    (hin : o.input = "screen" ∨ o.input = "both")
    (hvq : o.videoQuality = some "lossless")
    (hcrf : o.crf = none)
    (hbr : jsVal o.videoBitrate = none)
    (h : createFfmpegArgs env o = .ok args) :
    hasFlagPair args "-crf" "0" = true ∧ hasFlagPair args "-qp" "0" = true := by
  have hq1 : (mkQualityConfig o).videoQuality = some "lossless" := by
    simp [mkQualityConfig, hvq]
  have hq2 : (mkQualityConfig o).crf = none := by simp [mkQualityConfig, hcrf]
  have hq3 : jsVal (mkQualityConfig o).videoBitrate = none := by
    simpa [mkQualityConfig] using hbr
  unfold createFfmpegArgs at h
  cases hb : buildInputAndCodecArgs env o with
  | error e => rw [hb] at h; simp at h
  | ok core =>
    rw [hb] at h
    simp only [Except.ok.injEq] at h
    subst h
    unfold buildInputAndCodecArgs at hb
    rcases hin with hin | hin
    · simp only [hin, if_pos] at hb
      cases hvi : addVideoInput env (o.screenId.getD 0) (o.fps.getD 30)
          (o.platformConfig.getD {}) with
      | error e => rw [hvi] at hb; simp at hb
      | ok vi =>
        rw [hvi] at hb
        simp only [Except.ok.injEq] at hb
        subst hb
        have hsplit :
            "-y" :: (vi ++ addVideoCodec env o.videoCodec (some (mkQualityConfig o)))
              ++ [o.output]
            = ("-y" :: vi) ++ addVideoCodec env o.videoCodec (some (mkQualityConfig o))
              ++ [o.output] := by
          simp
        rw [hsplit]
        exact video_codec_group_lossless_pairs env o.videoCodec _ hq1 hq2 hq3 _ _
    · simp only [hin, if_pos, if_neg, String.reduceEq, reduceIte] at hb
      by_cases hd : env.platform = "darwin"
      · rw [if_pos hd] at hb
        simp only [Except.ok.injEq] at hb
        subst hb
        have hsplit :
            "-y" :: (["-f", "avfoundation",
                "-i", toString (o.screenId.getD 0) ++ ":" ++ jsOr o.audioDevice "0",
                "-r", jsNumToString (o.fps.getD 30)]
              ++ addVideoCodec env o.videoCodec (some (mkQualityConfig o))
              ++ addAudioCodec o.audioCodec (some (mkQualityConfig o))) ++ [o.output]
            = ("-y" :: ["-f", "avfoundation",
                "-i", toString (o.screenId.getD 0) ++ ":" ++ jsOr o.audioDevice "0",
                "-r", jsNumToString (o.fps.getD 30)])
              ++ addVideoCodec env o.videoCodec (some (mkQualityConfig o))
              ++ (addAudioCodec o.audioCodec (some (mkQualityConfig o)) ++ [o.output]) := by
          simp
        rw [hsplit]
        exact video_codec_group_lossless_pairs env o.videoCodec _ hq1 hq2 hq3 _ _
      · rw [if_neg hd] at hb
        cases hvi : addVideoInput env (o.screenId.getD 0) (o.fps.getD 30)
            (o.platformConfig.getD {}) with
        | error e => rw [hvi] at hb; simp at hb
        | ok vi =>
          rw [hvi] at hb
          cases hai : addAudioInput env o.audioDevice (o.platformConfig.getD {}) with
          | error e => rw [hai] at hb; simp at hb
          | ok ai =>
            rw [hai] at hb
            simp only [Except.ok.injEq] at hb
            subst hb
            have hsplit :
                "-y" :: (vi ++ ai
                    ++ addVideoCodec env o.videoCodec (some (mkQualityConfig o))
                    ++ addAudioCodec o.audioCodec (some (mkQualityConfig o))) ++ [o.output]
                = ("-y" :: (vi ++ ai))
                  ++ addVideoCodec env o.videoCodec (some (mkQualityConfig o))
                  ++ (addAudioCodec o.audioCodec (some (mkQualityConfig o)) ++ [o.output]) := by
              simp
            rw [hsplit]
            exact video_codec_group_lossless_pairs env o.videoCodec _ hq1 hq2 hq3 _ _

/-- Witness for C2 (amended) on a concrete Linux/X11 lossless build. -/
theorem lossless_emits_crf0_and_qp0_witness :
    hasFlagPair ["-y", "-f", "x11grab", "-r", "30", "-i", ":0", "-show_region", "1",
      "-c:v", "h264_vaapi", "-preset", "medium", "-crf", "0", "-qp", "0", "o.mkv"]
      "-crf" "0" = true
    ∧ hasFlagPair ["-y", "-f", "x11grab", "-r", "30", "-i", ":0", "-show_region", "1",
      "-c:v", "h264_vaapi", "-preset", "medium", "-crf", "0", "-qp", "0", "o.mkv"]
      "-qp" "0" = true :=
  lossless_emits_crf0_and_qp0 linuxX11Env
    { input := "screen", output := "o.mkv", videoQuality := some "lossless" }
    _ (Or.inl rfl) rfl rfl rfl rfl

/-- C6: calling `start` on a handle whose running flag is already set
rejects synchronously with the already-in-progress error, regardless of
the would-be spawn outcome, and returns the state unchanged (process
reference and flag intact). -/
theorem start_on_running_rejects_unchanged (s : RecorderState) (spawn : SpawnResult)
    (h : s.isRecording = true) :
    start s spawn = (.error "Recording is already in progress", s) := by
  simp [start, h]

/-- Witness for C6 at a concrete running handle. -/
theorem start_on_running_rejects_unchanged_witness :
    start { process := some 7, isRecording := true } (.spawned 9)
      = (.error "Recording is already in progress",
         { process := some 7, isRecording := true }) :=
  start_on_running_rejects_unchanged { process := some 7, isRecording := true }
    (.spawned 9) rfl

/-- C7: when `stop` runs on a running handle and the process exits before
the watchdog fires, the watchdog is cancelled, the process reference is
cleared and the running flag dropped, and the operation resolves on exit
code 0 or null and rejects carrying the code otherwise. -/
theorem stop_exit_before_watchdog (s : RecorderState) (code : Option ℤ) (atMs : ℚ)
    (hp : s.process.isSome = true) (hr : s.isRecording = true)
    (ht : atMs < stopTimeoutMs) :
    (stop s (.exited code atMs)).watchdogCancelled = true
    ∧ (stop s (.exited code atMs)).state = { process := none, isRecording := false }
    ∧ ((code = some 0 ∨ code = none) → (stop s (.exited code atMs)).outcome = .ok ())
    ∧ (∀ c : ℤ, code = some c → c ≠ 0 →
        (stop s (.exited code atMs)).outcome
          = .error ("FFmpeg exited with code " ++ toString c)) := by
  have hp' : s.process.isNone = false := by
    cases hps : s.process <;> simp [hps] at hp ⊢
  refine ⟨?_, ?_, ?_, ?_⟩ <;> simp only [stop, hp', hr, Bool.not_true, Bool.or_false, if_neg] <;>
    simp only [ht, if_pos]
  · rfl
  · rfl
  · intro hc
    simp [hc]
  · intro c hc hc0
    simp [hc, hc0]

/-- Witness for C7: a concrete running handle whose process exits with
code 3 after 100 ms. -/
theorem stop_exit_before_watchdog_witness :
    (stop { process := some 7, isRecording := true } (.exited (some 3) 100)).outcome
      = .error "FFmpeg exited with code 3" :=
  (stop_exit_before_watchdog { process := some 7, isRecording := true }
    (some 3) 100 rfl rfl (by norm_num [stopTimeoutMs])).2.2.2 3 rfl (by decide)

/-- C8: when `stop` runs on a running handle and the process has not
exited within 5 seconds of the graceful signal, the forceful kill signal is
sent and the operation rejects with the timeout error at the 5000 ms
mark. -/
theorem stop_watchdog_forces_kill (s : RecorderState) (ev : StopEvent)
    (hp : s.process.isSome = true) (hr : s.isRecording = true)
    (hev : ev = .noExit ∨ ∃ code atMs, ev = .exited code atMs ∧ stopTimeoutMs ≤ atMs) :
    (stop s ev).outcome = .error "FFmpeg process did not terminate gracefully"
    ∧ (stop s ev).sigkillSent = true
    ∧ (stop s ev).settleTimeMs = stopTimeoutMs := by
  have hp' : s.process.isNone = false := by
    cases hps : s.process <;> simp [hps] at hp ⊢
  rcases hev with hev | ⟨code, atMs, hev, hta⟩ <;> subst hev
  · simp [stop, hp', hr]
  · simp [stop, hp', hr, if_neg (not_lt.mpr hta)]

/-- Witness for C8: a concrete running handle whose process never exits. -/
theorem stop_watchdog_forces_kill_witness :
    (stop { process := some 7, isRecording := true } .noExit).sigkillSent = true :=
  (stop_watchdog_forces_kill { process := some 7, isRecording := true } .noExit
    rfl rfl (Or.inl rfl)).2.1

/-- C10: when the spawn fails, `start` rejects with the wrapped spawn
error, the handle is reset to the empty state, and a subsequent `start` on
that state passes the already-in-progress guard (here: a successful spawn
makes it run). -/
theorem start_spawn_failure_restartable (s : RecorderState) (m : String)
    (h : s.isRecording = false) :
    (start s (.errored m)).1 = .error ("Failed to start FFmpeg: " ++ m)
    ∧ (start s (.errored m)).2 = initialRecorderState
    ∧ ∀ hp : ℕ, start (start s (.errored m)).2 (.spawned hp)
        = (.ok (), { process := some hp, isRecording := true }) := by
  refine ⟨by simp [start, h], by simp [start, h, initialRecorderState], fun hp => ?_⟩
  simp [start, h, initialRecorderState]

/-- Whenever `createFfmpegArgs` succeeds, the result is the `-y` flag,
the input/codec section, and the trailing output path. -/
theorem createFfmpegArgs_shape (env : Env) (o : RecorderOptions) (args : List String)
    (h : createFfmpegArgs env o = .ok args) :
    ∃ core, args = "-y" :: core ++ [o.output] := by
  unfold createFfmpegArgs at h
  cases hb : buildInputAndCodecArgs env o with
  | error e => rw [hb] at h; simp at h
  | ok core =>
    rw [hb] at h
    simp only [Except.ok.injEq] at h
    exact ⟨core, h.symm⟩

/-- C5: for every environment and options value for which argument
building succeeds, the built sequence starts with the overwrite flag `-y`
and ends with the output path. -/
theorem overwrite_flag_first_output_path_last (env : Env) (o : RecorderOptions)
    (args : List String) (h : createFfmpegArgs env o = .ok args) :
    args.head? = some "-y" ∧ args.getLast? = some o.output := by
  obtain ⟨core, rfl⟩ := createFfmpegArgs_shape env o args h
  refine ⟨rfl, ?_⟩
  show (("-y" :: core) ++ [o.output]).getLast? = some o.output
  rw [List.getLast?_append_cons]
  rfl

/-- Witness for C5 on a concrete successful build (macOS, screen mode). -/
theorem overwrite_flag_first_output_path_last_witness :
    (["-y", "-f", "avfoundation", "-i", "0:", "-r", "30", "-c:v", "h264_videotoolbox",
      "-preset", "medium", "-crf", "23", "out.mp4"] : List String).head? = some "-y"
    ∧ (["-y", "-f", "avfoundation", "-i", "0:", "-r", "30", "-c:v", "h264_videotoolbox",
      "-preset", "medium", "-crf", "23", "out.mp4"] : List String).getLast? = some "out.mp4" :=
  overwrite_flag_first_output_path_last { platform := "darwin" }
    { input := "screen", output := "out.mp4" } _ rfl

/-- Witness for C10 at a concrete idle handle and spawn error. -/
theorem start_spawn_failure_restartable_witness :
    (start initialRecorderState (.errored "spawn ENOENT")).1
      = .error "Failed to start FFmpeg: spawn ENOENT" :=
  (start_spawn_failure_restartable initialRecorderState "spawn ENOENT" rfl).1

end FfmpegCapture
